import Mathlib

/-!
Shallow embedding of the PipelClipper client-side clip renderer and clip
suggestion path (src/types.ts, src/components/UploadSegment.tsx), with
theorems checking the specification's testable properties against the code.

Times and pixel dimensions are modelled as exact rationals (the source uses
IEEE doubles only for values where no overflow or rounding is at stake in the
properties below); the event-driven control flow of `renderClip` is modelled
as explicit handler functions from the signal data they receive to the action
the handler performs.
-/

namespace PipelClipper

/-- The five aspect ratio choices of the `AspectRatio` enum in src/types.ts. -/
inductive AspectRatio
  | PORTRAIT
  | LANDSCAPE
  | SQUARE
  | FOUR_FIVE
  | FIVE_FOUR
deriving DecidableEq, Repr

/-- Target output pixel dimensions (the object returned by
`getTargetDimensions`). -/
structure TargetGeometry where
  width : ℕ
  height : ℕ
deriving DecidableEq, Repr

/-- `getTargetDimensions` from src/types.ts (lines 152-162): a fixed lookup
table from the aspect ratio enum to output pixel dimensions
("Standardizing on 1080p base for quality"). -/
def getTargetDimensions : AspectRatio → TargetGeometry
  | .PORTRAIT => { width := 1080, height := 1920 }
  | .LANDSCAPE => { width := 1920, height := 1080 }
  | .SQUARE => { width := 1080, height := 1080 }
  | .FOUR_FIVE => { width := 1080, height := 1350 }
  | .FIVE_FOUR => { width := 1350, height := 1080 }

/-- The source crop rectangle `(sx, sy, sWidth, sHeight)` computed by
`renderFrame` and handed to `ctx.drawImage`. -/
structure CropRect where
  sx : ℚ
  sy : ℚ
  sWidth : ℚ
  sHeight : ℚ
deriving DecidableEq, Repr

/-- The center-crop computation inside `renderFrame` in src/types.ts
(lines 296-316): given known source dimensions `vw, vh` and the target
geometry, compute the source rectangle drawn onto the output canvas.
If the video is wider than the target ratio the sides are cropped keeping
full height; otherwise the top and bottom are cropped keeping full width. -/
def cropRect (vw vh : ℚ) (target : TargetGeometry) : CropRect :=
  let videoRatio := vw / vh
  let targetRatio := (target.width : ℚ) / (target.height : ℚ)
  if videoRatio > targetRatio then
    { sHeight := vh
      sWidth := vh * targetRatio
      sx := (vw - vh * targetRatio) / 2
      sy := 0 }
  else
    { sWidth := vw
      sHeight := vw / targetRatio
      sx := 0
      sy := (vh - vw / targetRatio) / 2 }

/-- The guarded draw step of `renderFrame` (src/types.ts lines 293-317):
the crop computation and the `drawImage` call run only under
`if (vw && vh)`, i.e. only when both source dimensions are nonzero;
otherwise the tick draws nothing. `some r` means the tick draws with crop
rectangle `r`; `none` means the tick skips the draw. -/
def renderFrameDraw (vw vh : ℕ) (target : TargetGeometry) : Option CropRect :=
  if vw ≠ 0 ∧ vh ≠ 0 then some (cropRect (vw : ℚ) (vh : ℚ) target) else none

/-- Outcome of the `video.onseeked` handler in `renderClip` (src/types.ts
lines 339-351): `capturing` when the recorder was started and playback with
the render loop began, `rejected` when the returned promise was rejected
(the only rejection in this handler comes from `video.play()` failing), and
`pending` when the handler returned without doing anything, leaving the
promise unsettled. -/
inductive SeekHandlerResult
  | capturing
  | rejected (msg : String)
  | pending
deriving DecidableEq, Repr

/-- Whether a `SeekHandlerResult` is a rejection of the render promise. -/
def SeekHandlerResult.isRejected : SeekHandlerResult → Bool
  | .rejected _ => true
  | _ => false

/-- The `video.onseeked` handler of `renderClip` (src/types.ts lines
339-351): when the landed position is within 0.5s of the requested clip
start, it starts the recorder and playback (rejecting only if `play()`
fails); when the position is outside that tolerance it does nothing at all. -/
def onseeked (currentTime startTime : ℚ) (playSucceeds : Bool) : SeekHandlerResult :=
  if |currentTime - startTime| < 1/2 then
    if playSucceeds then .capturing else .rejected "Playback error"
  else .pending

/-- What the audio graph construction attempted inside
`video.onloadedmetadata` (src/types.ts lines 238-249) can do:
`createMediaElementSource`/`connect` succeed (with or without an audio track
present on the destination stream), or the construction throws. -/
inductive AudioSetup
  | ok (hasTrack : Bool)
  | failed (msg : String)
deriving DecidableEq, Repr

/-- Outcome of the `video.onloadedmetadata` handler: the render proceeds
(`audioAttached` tells whether an audio track was added to the outgoing
stream, `warned` whether a warning was logged), or the render is failed. -/
inductive MetadataHandlerResult
  | proceed (audioAttached : Bool) (warned : Bool)
  | fail (msg : String)
deriving DecidableEq, Repr

/-- The `video.onloadedmetadata` handler of `renderClip` (src/types.ts lines
238-249): the audio graph construction is wrapped in try/catch; on success
the destination's audio track, if present, is added to the canvas stream; on
an exception a warning is logged and the handler returns normally. No path
fails the render. -/
def onloadedmetadata : AudioSetup → MetadataHandlerResult
  | .ok hasTrack => .proceed hasTrack false
  | .failed _ => .proceed false true

/-- The temporary resources `renderClip` creates for one render operation
(src/types.ts lines 206-277): the object URL of the source file, the audio
context, the captured canvas media stream, and the media recorder. -/
inductive Resource
  | objectURL
  | audioContext
  | mediaStream
  | recorder
deriving DecidableEq, Repr

/-- The exit paths of one `renderClip` operation as written in the source:
`noCanvasContext` (reject at line 224), `videoError` (reject in
`video.onerror`, line 353), `playbackError` (reject in the `play()` catch,
line 348), and `completed` (resolve in `recorder.onstop`, lines 271-277). -/
inductive ExitPath
  | noCanvasContext
  | videoError
  | playbackError
  | completed
deriving DecidableEq, Repr

/-- The temporary resources that have been created by the time the given exit
path can run (from the source order: the object URL is created at line 209,
before the canvas-context check at line 223; the audio context (line 230),
canvas stream (line 235) and recorder (line 261) are created synchronously
afterwards, before any media event can fire). -/
def acquiredBefore : ExitPath → List Resource
  | .noCanvasContext => [.objectURL]
  | _ => [.objectURL, .audioContext, .mediaStream, .recorder]

/-- The release actions `renderClip` performs on the given exit path (from
the source: only the `completed` path runs any cleanup — `recorder.stop()`
was called in `renderFrame` and `recorder.onstop` closes the audio context
and clears `video.src`; `URL.revokeObjectURL` is never called on the source
object URL, the stream's tracks are never stopped, and the three rejecting
paths perform no release at all). -/
def releasedOn : ExitPath → List Resource
  | .completed => [.recorder, .audioContext]
  | _ => []

/-- The resource discipline asserted by the specification for one exit path:
every temporary resource created before that exit is released exactly once
on it. -/
def resourcesReleasedExactlyOnce (p : ExitPath) : Prop :=
  ∀ r ∈ acquiredBefore p, (releasedOn p).count r = 1

/-- The clamp `Math.min(99, Math.max(0, x))` applied to the raw progress
percentage before it is handed to `onProgress` (src/types.ts line 321). -/
def clampProgress (x : ℚ) : ℚ := min 99 (max 0 x)

/-- The progress value `renderFrame` delivers to the caller's callback at a
tick where the source position is `cur` (src/types.ts lines 320-321):
`((cur - startTime) / (endTime - startTime)) * 100`, clamped to [0, 99]. -/
def progressValue (cur startTime endTime : ℚ) : ℚ :=
  clampProgress ((cur - startTime) / (endTime - startTime) * 100)

/-- The sequence of values passed to the caller's `onProgress` callback over
one render, one per compositor tick, at the sampled source positions
`times`. `renderFrame` is the only caller of `onProgress` in `renderClip`
(src/types.ts lines 282-331); no other progress value is ever delivered. -/
def renderProgressEmits (times : List ℚ) (startTime endTime : ℚ) : List ℚ :=
  times.map fun c => progressValue c startTime endTime

/-- The successive values of the `downloadProgress` state over one successful
`downloadClip` run (src/types.ts lines 164-194): the initial
`setDownloadProgress(0)`, then one callback value per tick, then the
`finally` block's reset `setDownloadProgress(0)`. No `setDownloadProgress(100)`
call exists in the source. -/
def downloadProgressStates (times : List ℚ) (startTime endTime : ℚ) : List ℚ :=
  0 :: (renderProgressEmits times startTime endTime ++ [0])

/-- A clip object as parsed from the suggestion service's JSON response
(src/components/UploadSegment.tsx line 354), before ids are added and
timestamps validated. -/
structure RawClip where
  title : String
  description : String
  startTime : ℚ
  endTime : ℚ
  viralityScore : ℚ
  tags : List String
deriving DecidableEq, Repr

/-- The `GeneratedClip` interface of src/types.ts (lines 37-45). -/
structure GeneratedClip where
  id : String
  title : String
  description : String
  startTime : ℚ
  endTime : ℚ
  viralityScore : ℚ
  tags : List String
deriving DecidableEq, Repr

/-- The validation step of `analyzeVideoForClips` applied to each parsed
clip (src/components/UploadSegment.tsx lines 357-362): an id is attached,
`startTime` becomes `Math.min(Math.max(0, startTime), videoDuration - 5)`
and `endTime` becomes `Math.min(endTime, videoDuration)` (`now` stands for
the `Date.now()` timestamp baked into the id). -/
def clampClipTimes (videoDuration : ℚ) (now iteration index : ℕ)
    (clip : RawClip) : GeneratedClip :=
  { id := s!"clip-{now}-{iteration}-{index}"
    title := clip.title
    description := clip.description
    startTime := min (max 0 clip.startTime) (videoDuration - 5)
    endTime := min clip.endTime videoDuration
    viralityScore := clip.viralityScore
    tags := clip.tags }

/-- `fallbackClips` (src/components/UploadSegment.tsx lines 371-382): the
deterministic local generator used when the service call fails, producing
four clips spaced by `Math.floor(duration / (5 + iteration))` with no
clamping of the resulting times. -/
def fallbackClips (fileName : String) (duration : ℚ) (iteration : ℕ) :
    List GeneratedClip :=
  let segment : ℤ := ⌊duration / (5 + (iteration : ℚ))⌋
  (List.range 4).map fun i =>
    { id := s!"fallback-{iteration}-{i}"
      title := s!"Part {i + 1} - {fileName} (Gen {iteration})"
      description := "Auto-detected highlight based on audio levels and motion."
      startTime := (i : ℚ) * (segment : ℚ) + 10 * (iteration : ℚ)
      endTime := (i : ℚ) * (segment : ℚ) + 40 * (iteration : ℚ)
      viralityScore := 85
      tags := ["auto", "highlight"] }

/-- The observable outcomes of the Gemini request inside
`analyzeVideoForClips` (src/components/UploadSegment.tsx lines 327-368):
`ok clips` — the request succeeded and `response.text` parsed to the given
clip array (possibly empty); `emptyText` — the request succeeded but
`response.text` was absent or empty, so `throw new Error("No response from AI")`
runs and is caught; `apiError` — the request itself (or JSON parsing)
threw. -/
inductive ServiceResponse
  | ok (clips : List RawClip)
  | emptyText
  | apiError
deriving DecidableEq, Repr

/-- A malformed raw clip a misbehaving suggestion service could return:
its startTime is negative and its endTime exceeds any 60-second video. -/
def malformedRawClip : RawClip :=
  { title := "t"
    description := "d"
    startTime := -3
    endTime := 100
    viralityScore := 90
    tags := [] }

/-- `analyzeVideoForClips` (src/components/UploadSegment.tsx lines 275-369),
with the service outcome made an explicit argument: a successful parsed
response is mapped through the id/clamping step; the thrown-text case and
the request-error case both land in the catch block, which returns
`fallbackClips`. -/
def analyzeVideoForClips (fileName : String) (videoDuration : ℚ)
    (iteration now : ℕ) (response : ServiceResponse) : List GeneratedClip :=
  match response with
  | .ok clips =>
      clips.enum.map fun p => clampClipTimes videoDuration now iteration p.1 p.2
  | .emptyText => fallbackClips fileName videoDuration iteration
  | .apiError => fallbackClips fileName videoDuration iteration

/-- C1 counterexample: for the PORTRAIT ratio, `getTargetDimensions` returns
the pair (1080, 1920), whose longer edge is 1920 pixels, not 1080. -/
theorem targetDimensions_long_edge_counterexample :
    getTargetDimensions AspectRatio.PORTRAIT = { width := 1080, height := 1920 } ∧
    max (getTargetDimensions AspectRatio.PORTRAIT).width
      (getTargetDimensions AspectRatio.PORTRAIT).height ≠ 1080 := by
  decide

/-- C1 (amended): for every value of the aspect ratio enum,
`getTargetDimensions` returns a fixed, deterministic pair taken from a lookup
table, and the SHORTER edge of that pair is 1080 pixels. -/
theorem targetDimensions_short_edge_1080 (r : AspectRatio) :
    min (getTargetDimensions r).width (getTargetDimensions r).height = 1080 := by
  cases r <;> decide

/-- C2 counterexample: with the seek landed at 10.5s for a requested clip
start of 10s — a deviation of exactly 0.5s, hence outside the strict
tolerance — the `onseeked` handler leaves the render promise pending; it
does not reject with a seek-precision error (nor with any error). -/
theorem onseeked_no_rejection_counterexample :
    onseeked (21/2) 10 true = SeekHandlerResult.pending ∧
    (onseeked (21/2) 10 true).isRejected = false := by
  have h : onseeked (21/2) 10 true = SeekHandlerResult.pending := by
    unfold onseeked
    rw [show (21:ℚ)/2 - 10 = 1/2 by norm_num,
      abs_of_nonneg (by norm_num : (0:ℚ) ≤ 1/2), if_neg (by norm_num)]
  exact ⟨h, by rw [h]; rfl⟩

/-- C2 (amended): if after the seek-completed signal the source position
differs from the requested clip start by 0.5 seconds or more, the render
does not proceed but also does not fail: the `onseeked` handler takes no
action at all, so capture never starts and the returned promise is left
pending — no seek-precision error is ever reported, and there is no retry. -/
theorem onseeked_out_of_tolerance_pending (cur start : ℚ) (play : Bool)
    (h : 1/2 ≤ |cur - start|) :
    onseeked cur start play = SeekHandlerResult.pending := by
  unfold onseeked
  rw [if_neg (not_lt.mpr h)]

/-- Witness for the amended C2 theorem at the concrete input (12, 10). -/
theorem onseeked_out_of_tolerance_pending_witness :
    onseeked 12 10 false = SeekHandlerResult.pending :=
  onseeked_out_of_tolerance_pending 12 10 false (by norm_num)

/-- C3 (code bug): the resource discipline the specification asserts fails
in the source. On the `videoError` exit path `renderClip` rejects without
releasing any of the four already-created temporary resources, and even on
the `completed` path the object URL is never revoked and the media stream's
tracks are never stopped. -/
theorem renderClip_resource_leak :
    ¬ resourcesReleasedExactlyOnce ExitPath.videoError ∧
    releasedOn ExitPath.videoError = [] ∧
    acquiredBefore ExitPath.videoError ≠ [] ∧
    (releasedOn ExitPath.completed).count Resource.objectURL = 0 ∧
    (releasedOn ExitPath.completed).count Resource.mediaStream = 0 := by
  unfold resourcesReleasedExactlyOnce
  decide

/-- C8: if the audio graph construction throws inside `onloadedmetadata`,
the condition is logged as a warning and the render proceeds with video-only
output; moreover no audio setup outcome whatsoever makes the handler fail
the render, so an audio failure is never surfaced as an error to the
caller. -/
theorem audio_failure_nonfatal (m : String) :
    onloadedmetadata (AudioSetup.failed m) = MetadataHandlerResult.proceed false true ∧
    ∀ s : AudioSetup, ∀ m2 : String,
      onloadedmetadata s ≠ MetadataHandlerResult.fail m2 := by
  refine ⟨rfl, ?_⟩
  intro s m2
  cases s <;> simp [onloadedmetadata]

/-- C9: on a compositor tick where the source frame width or height is still
zero, the draw step of `renderFrame` skips both the crop computation and the
draw, so no division by a zero source dimension occurs on that tick. -/
theorem renderFrameDraw_skips_when_unknown (vw vh : ℕ) (target : TargetGeometry)
    (h : vw = 0 ∨ vh = 0) : renderFrameDraw vw vh target = none := by
  unfold renderFrameDraw
  rcases h with h | h <;> simp [h]

/-- Witness for the C9 theorem with a zero width and the PORTRAIT target. -/
theorem renderFrameDraw_skips_witness :
    renderFrameDraw 0 1080 (getTargetDimensions AspectRatio.PORTRAIT) = none :=
  renderFrameDraw_skips_when_unknown 0 1080
    (getTargetDimensions AspectRatio.PORTRAIT) (Or.inl rfl)

/-- A delivered progress value never exceeds 99 (the first arm of the
clamp). -/
theorem progressValue_le_99 (cur s e : ℚ) : progressValue cur s e ≤ 99 :=
  min_le_left _ _

/-- A delivered progress value is never negative (the second arm of the
clamp). -/
theorem progressValue_nonneg (cur s e : ℚ) : 0 ≤ progressValue cur s e :=
  le_min (by norm_num) (le_max_left _ _)

/-- The per-tick progress value is monotone in the source position when the
clip has positive length. -/
theorem progressValue_mono {s e : ℚ} (hse : s < e) {a b : ℚ} (hab : a ≤ b) :
    progressValue a s e ≤ progressValue b s e := by
  unfold progressValue clampProgress
  have h0 : (0:ℚ) < e - s := by linarith
  refine min_le_min le_rfl (max_le_max le_rfl ?_)
  gcongr

/-- C4 (amended): over one render with a positive-length clip and
non-decreasing sampled source positions, the values delivered to the
caller's callback are non-decreasing, each equals the clamped formula
`clamp((cur - startTime) / (endTime - startTime) * 100, 0, 99)` by
construction and so lies in [0, 99] — and no delivered value is 100: the
source contains no terminal `onProgress(100)` signal. -/
theorem renderProgress_monotone_bounded (times : List ℚ) (s e : ℚ)
    (hse : s < e) (hmono : times.Chain' (· ≤ ·)) :
    (renderProgressEmits times s e).Chain' (· ≤ ·) ∧
    (∀ v ∈ renderProgressEmits times s e, 0 ≤ v ∧ v ≤ 99) ∧
    (∀ v ∈ renderProgressEmits times s e, v ≠ 100) := by
  refine ⟨?_, ?_, ?_⟩
  · rw [renderProgressEmits, List.chain'_map]
    exact List.Chain'.imp (fun a b hab => progressValue_mono hse hab) hmono
  · intro v hv
    simp only [renderProgressEmits, List.mem_map] at hv
    obtain ⟨c, _, rfl⟩ := hv
    exact ⟨progressValue_nonneg c s e, progressValue_le_99 c s e⟩
  · intro v hv h100
    simp only [renderProgressEmits, List.mem_map] at hv
    obtain ⟨c, _, rfl⟩ := hv
    have := progressValue_le_99 c s e
    rw [h100] at this
    norm_num at this

/-- Witness for the amended C4 theorem on the clip {start 30s, end 75s} with
ticks at 30, 50, 75. -/
theorem renderProgress_monotone_bounded_witness :
    (renderProgressEmits [30, 50, 75] 30 75).Chain' (· ≤ ·) ∧
    (∀ v ∈ renderProgressEmits [30, 50, 75] 30 75, 0 ≤ v ∧ v ≤ 99) ∧
    (∀ v ∈ renderProgressEmits [30, 50, 75] 30 75, v ≠ 100) :=
  renderProgress_monotone_bounded [30, 50, 75] 30 75 (by norm_num)
    (by norm_num [List.chain'_cons, List.chain'_singleton])

/-- C4 counterexample: for the clip {start 30s, end 75s} with ticks at 30,
50 and 75, the full sequence of `downloadProgress` states delivered over a
successful run is [0, 0, 400/9, 99, 0] — the value 100 never occurs, and the
terminal state after success is the reset to 0, not 100. -/
theorem downloadProgress_no_terminal_100_counterexample :
    downloadProgressStates [30, 50, 75] 30 75 = [0, 0, 400/9, 99, 0] ∧
    (100 : ℚ) ∉ downloadProgressStates [30, 50, 75] 30 75 := by
  have h : downloadProgressStates [30, 50, 75] 30 75 = [0, 0, 400/9, 99, 0] := by
    unfold downloadProgressStates renderProgressEmits progressValue clampProgress
    norm_num [min_def, max_def]
  refine ⟨h, ?_⟩
  rw [h]
  norm_num

/-- C5 counterexample: with videoDuration 10s and iteration 1, the fallback
path of the suggestion call returns clips with endTimes [40, 41, 42, 43],
all exceeding the video duration — the fallback path never clamps. -/
theorem fallback_no_clamp_counterexample :
    ((analyzeVideoForClips "v" 10 1 0 ServiceResponse.apiError).map
      GeneratedClip.endTime) = [40, 41, 42, 43] ∧
    ¬ ((40 : ℚ) ≤ 10) := by
  constructor
  · norm_num [analyzeVideoForClips, fallbackClips, List.range_succ]
  · norm_num

/-- C5 (amended): only the service-response path validates time bounds:
there every returned clip has `startTime = min (max 0 raw) (videoDuration - 5)`
— hence within [0, videoDuration - 5] whenever videoDuration ≥ 5 — and
`endTime ≤ videoDuration`, with malformed bounds corrected by clamping and
never propagated as a failure; the local fallback path performs no clamping
and can exceed these bounds. -/
theorem service_path_clamps (fileName : String) (videoDuration : ℚ)
    (iteration now : ℕ) (clips : List RawClip) (hd : 5 ≤ videoDuration) :
    ∀ c ∈ analyzeVideoForClips fileName videoDuration iteration now
      (ServiceResponse.ok clips),
      0 ≤ c.startTime ∧ c.startTime ≤ videoDuration - 5 ∧
      c.endTime ≤ videoDuration := by
  intro c hc
  simp only [analyzeVideoForClips, List.mem_map] at hc
  obtain ⟨p, _, rfl⟩ := hc
  unfold clampClipTimes
  refine ⟨le_min (le_max_left _ _) (by linarith), min_le_right _ _, min_le_right _ _⟩

/-- Witness for the amended C5 theorem: a malformed raw clip with
startTime −3s and endTime 100s against a 60s video. -/
theorem service_path_clamps_witness :
    0 ≤ (clampClipTimes 60 0 1 0 malformedRawClip).startTime ∧
    (clampClipTimes 60 0 1 0 malformedRawClip).startTime ≤ 60 - 5 ∧
    (clampClipTimes 60 0 1 0 malformedRawClip).endTime ≤ 60 :=
  service_path_clamps "v" 60 1 0 [malformedRawClip] (by norm_num)
    (clampClipTimes 60 0 1 0 malformedRawClip)
    (by exact List.mem_cons_self _ _)

/-- C7 counterexample: a successful service response containing zero clips
yields an empty clip list — the fallback generator is not invoked even
though videoDuration = 600 > 0. -/
theorem empty_response_empty_result_counterexample :
    analyzeVideoForClips "v" 600 1 0 (ServiceResponse.ok []) = [] ∧
    (0 : ℚ) < 600 := by
  exact ⟨rfl, by norm_num⟩

/-- C7 (amended): the fallback generator runs only when the service call
throws (missing response text, or a request/parse error); on those paths the
suggestion call returns exactly four clips — a non-empty sequence — for any
videoDuration > 0. A successful response with zero clips, however, is
returned as-is: an empty sequence. -/
theorem fallback_nonempty (fileName : String) (videoDuration : ℚ)
    (iteration now : ℕ) (_hd : 0 < videoDuration) :
    (analyzeVideoForClips fileName videoDuration iteration now
      ServiceResponse.emptyText).length = 4 ∧
    (analyzeVideoForClips fileName videoDuration iteration now
      ServiceResponse.apiError).length = 4 := by
  constructor <;> rfl

/-- Witness for the amended C7 theorem at videoDuration 600s. -/
theorem fallback_nonempty_witness :
    (analyzeVideoForClips "video.mp4" 600 1 0
      ServiceResponse.emptyText).length = 4 ∧
    (analyzeVideoForClips "video.mp4" 600 1 0
      ServiceResponse.apiError).length = 4 :=
  fallback_nonempty "video.mp4" 600 1 0 (by norm_num)

/-- The wide branch of the crop computation, as an equation. -/
theorem cropRect_eq_wide (vw vh : ℚ) (target : TargetGeometry)
    (h : vw / vh > (target.width : ℚ) / (target.height : ℚ)) :
    cropRect vw vh target =
      { sHeight := vh
        sWidth := vh * ((target.width : ℚ) / (target.height : ℚ))
        sx := (vw - vh * ((target.width : ℚ) / (target.height : ℚ))) / 2
        sy := 0 } := by
  simp only [cropRect]
  rw [if_pos h]

/-- The tall branch of the crop computation, as an equation. -/
theorem cropRect_eq_tall (vw vh : ℚ) (target : TargetGeometry)
    (h : ¬ vw / vh > (target.width : ℚ) / (target.height : ℚ)) :
    cropRect vw vh target =
      { sWidth := vw
        sHeight := vw / ((target.width : ℚ) / (target.height : ℚ))
        sx := 0
        sy := (vh - vw / ((target.width : ℚ) / (target.height : ℚ))) / 2 } := by
  simp only [cropRect]
  rw [if_neg h]

/-- C6: when the source is relatively wider than the target
(`vw / vh > target.width / target.height`) the crop keeps full source height,
takes `sWidth = vh * target.width / target.height`, has `sy = 0` and is
horizontally centered (`sx = (vw - sWidth) / 2`); in the symmetric case it
keeps full source width, has `sx = 0` and crops top and bottom
symmetrically. -/
theorem cropRect_center_crop (vw vh : ℚ) (target : TargetGeometry) :
    (vw / vh > (target.width : ℚ) / (target.height : ℚ) →
      (cropRect vw vh target).sHeight = vh ∧
      (cropRect vw vh target).sWidth =
        vh * ((target.width : ℚ) / (target.height : ℚ)) ∧
      (cropRect vw vh target).sy = 0 ∧
      (cropRect vw vh target).sx = (vw - (cropRect vw vh target).sWidth) / 2) ∧
    (¬ vw / vh > (target.width : ℚ) / (target.height : ℚ) →
      (cropRect vw vh target).sWidth = vw ∧
      (cropRect vw vh target).sHeight =
        vw / ((target.width : ℚ) / (target.height : ℚ)) ∧
      (cropRect vw vh target).sx = 0 ∧
      (cropRect vw vh target).sy =
        (vh - (cropRect vw vh target).sHeight) / 2) := by
  constructor
  · intro h
    rw [cropRect_eq_wide vw vh target h]
    exact ⟨rfl, rfl, rfl, rfl⟩
  · intro h
    rw [cropRect_eq_tall vw vh target h]
    exact ⟨rfl, rfl, rfl, rfl⟩

/-- C10: for positive source and target dimensions the crop rectangle lies
entirely within the source frame, in exact rational arithmetic:
`0 ≤ sx`, `0 ≤ sy`, `sx + sWidth ≤ vw` and `sy + sHeight ≤ vh`. -/
theorem cropRect_within_source (vw vh : ℚ) (target : TargetGeometry)
    (hvw : 0 < vw) (hvh : 0 < vh)
    (htw : 0 < (target.width : ℚ)) (hth : 0 < (target.height : ℚ)) :
    0 ≤ (cropRect vw vh target).sx ∧ 0 ≤ (cropRect vw vh target).sy ∧
    (cropRect vw vh target).sx + (cropRect vw vh target).sWidth ≤ vw ∧
    (cropRect vw vh target).sy + (cropRect vw vh target).sHeight ≤ vh := by
  have htr : 0 < (target.width : ℚ) / (target.height : ℚ) := div_pos htw hth
  by_cases h : vw / vh > (target.width : ℚ) / (target.height : ℚ)
  · rw [cropRect_eq_wide vw vh target h]
    have hlt : (target.width : ℚ) / (target.height : ℚ) * vh < vw :=
      (lt_div_iff₀ hvh).mp h
    have hcomm : vh * ((target.width : ℚ) / (target.height : ℚ)) =
        (target.width : ℚ) / (target.height : ℚ) * vh := mul_comm _ _
    refine ⟨?_, le_refl 0, ?_, ?_⟩
    · simp only []
      linarith
    · simp only []
      linarith
    · simp only []
      linarith
  · rw [cropRect_eq_tall vw vh target h]
    push_neg at h
    have hle : vw ≤ (target.width : ℚ) / (target.height : ℚ) * vh :=
      (div_le_iff₀ hvh).mp h
    have hhgt : vw / ((target.width : ℚ) / (target.height : ℚ)) ≤ vh := by
      rw [div_le_iff₀ htr]
      linarith [mul_comm vh ((target.width : ℚ) / (target.height : ℚ))]
    have hhpos : 0 < vw / ((target.width : ℚ) / (target.height : ℚ)) :=
      div_pos hvw htr
    refine ⟨le_refl 0, ?_, ?_, ?_⟩
    · simp only []
      linarith
    · simp only []
      linarith
    · simp only []
      linarith

/-- Witness for the C10 theorem on a 1920×1080 source with the PORTRAIT
(1080×1920) target. -/
theorem cropRect_within_source_witness :
    0 ≤ (cropRect 1920 1080 (getTargetDimensions AspectRatio.PORTRAIT)).sx ∧
    0 ≤ (cropRect 1920 1080 (getTargetDimensions AspectRatio.PORTRAIT)).sy ∧
    (cropRect 1920 1080 (getTargetDimensions AspectRatio.PORTRAIT)).sx +
      (cropRect 1920 1080 (getTargetDimensions AspectRatio.PORTRAIT)).sWidth ≤ 1920 ∧
    (cropRect 1920 1080 (getTargetDimensions AspectRatio.PORTRAIT)).sy +
      (cropRect 1920 1080 (getTargetDimensions AspectRatio.PORTRAIT)).sHeight ≤ 1080 :=
  cropRect_within_source 1920 1080 (getTargetDimensions AspectRatio.PORTRAIT)
    (by norm_num) (by norm_num) (by norm_num [getTargetDimensions])
    (by norm_num [getTargetDimensions])

end PipelClipper
